import Mathlib

/- Verification of the go-parallel map/reduce engine: a shallow embedding of
the configuration, failure-trap, outcome-resolution, completion-barrier and
worker-loop logic of src/parallel.go together with the built-in int64
reducers of the reducers package, and theorems about them. Go int64
arithmetic is modelled on Int with explicit two's-complement wrapping. -/

namespace GoParallel

/-- Two's-complement wrap of Go int64 arithmetic: reduces an integer into
the range from -2^63 to 2^63 - 1, modulo 2^64. -/
def wrap64 (z : Int) : Int := (z + 2 ^ 63) % 2 ^ 64 - 2 ^ 63

/-- Function reducers.Add of the reducers package: p + c on int64. -/
def Add (p c : Int) : Int := wrap64 (p + c)

/-- Function reducers.Multiply of the reducers package: p * c on int64. -/
def Multiply (p c : Int) : Int := wrap64 (p * c)

/-- Reduction Loop body (src/parallel.go lines 282-284): starting from the
seed, t = reducer(t, a) for each result a taken from the out channel. The
arrival order of the results is an arbitrary interleaving of the worker
outputs, so it is quantified as a permutation of the mapped jobs in the
theorems below. -/
def reduceAll (fn : Int → Int → Int) (seed : Int) (arrival : List Int) : Int :=
  arrival.foldl fn seed

/-- Payload of a Go panic value as trapped by the engine. The constructor
errCancelledMapper stands for the sentinel error ErrCancelledMapper
(src/parallel.go line 22) that the pool cancel function wraps in a trapped
panic; str covers ordinary panic payloads such as the strings thrown by
caller code in the tests. -/
inductive PanicPayload where
  | str (s : String)
  | errCancelledMapper
  deriving DecidableEq, Repr

/-- Struct ErrTrappedPanic (src/parallel.go lines 27-30): an underlying
panic value and the call-stack snapshot captured with it (a byte slice,
modelled as a list of byte values). -/
structure ErrTrappedPanic where
  Panic : PanicPayload
  Stack : List Nat
  deriving DecidableEq, Repr

/-- Error reported by a Go context (context.Context.Err): context.Canceled
or context.DeadlineExceeded. -/
inductive CtxErr where
  | canceled
  | deadlineExceeded
  deriving DecidableEq, Repr

/-- A Go context.Context modelled by its error status over the invocation:
none for a live context, some e once cancelled or timed out. The Done
channel fires exactly when the status is non-none. -/
structure Context where
  errNow : Option CtxErr
  deriving DecidableEq, Repr

/-- The background context (context.Background()): never cancelled. -/
def Context.background : Context := { errNow := none }

/-- Errors of the package: the two option-validation errors
(src/parallel.go lines 16 and 19), a trapped panic, and a context error
surfaced at outcome resolution. -/
inductive GoErr where
  | optInvalidValueQueue
  | optInvalidValueContext
  | trapped (e : ErrTrappedPanic)
  | fromCtx (e : CtxErr)
  deriving DecidableEq, Repr

/-- A sync/atomic.Value slot: read by Load, written by Store. Both the
pool-level Failure Trap (field trapped of struct mapper, src/parallel.go
line 41) and the per-invocation FailureRecord (local trapped,
src/parallel.go line 224) are values of this type. -/
abbrev AtomicValue (α : Type) := Option α

/-- Store of sync/atomic.Value: sets the slot to x, unconditionally
replacing whatever was stored before. -/
def AtomicValue.store {α : Type} (_ : AtomicValue α) (x : α) : AtomicValue α :=
  some x

/-- Load of sync/atomic.Value: returns the current contents of the slot,
none when nothing was ever stored. -/
def AtomicValue.load {α : Type} (v : AtomicValue α) : Option α := v

/-- Struct mapper (src/parallel.go lines 36-42), the worker pool: its worker
count and its Failure Trap. The op channel carries no state needed by the
claims below. -/
structure Mapper where
  count : Nat
  trapped : AtomicValue ErrTrappedPanic
  deriving DecidableEq, Repr

/-- State part of newMapper (src/parallel.go line 105): a pool of sz workers
with an empty Failure Trap. -/
def newMapper (sz : Nat) : Mapper := { count := sz, trapped := none }

/-- The fault stored by a pool's cancel function (src/parallel.go line 169):
an ErrTrappedPanic whose payload is ErrCancelledMapper and whose stack is
nil. -/
def cancelledFault : ErrTrappedPanic := { Panic := .errCancelledMapper, Stack := [] }

/-- The CancelFunc returned by newMapper (src/parallel.go lines 168-171):
stores the cancelled-mapper fault into the pool's Failure Trap (closing the
op channel is not modelled). In Go it mutates the shared pool in place;
here the mutation is threaded explicitly. -/
def cancelMapper (m : Mapper) : Mapper :=
  { m with trapped := AtomicValue.store m.trapped cancelledFault }

/-- Struct options (src/parallel.go lines 44-50). queue is a Go int;
cancelSet records whether the engine owns the pool and will cancel it
itself (field cancel being non-nil). -/
structure Options where
  queue : Int
  ctx : Context
  mapper : Option Mapper
  cancelSet : Bool
  deriving DecidableEq, Repr

/-- The Option type of the package (src/parallel.go line 53): a function
that updates the options record, or reports an error in which case the
record is left unchanged (the Go closure returns before mutating). -/
abbrev GoOption : Type := Options → Except GoErr Options

/-- OptQueue (src/parallel.go lines 57-65). -/
def OptQueue (sz : Int) : GoOption := fun o =>
  if sz < 1 then .error .optInvalidValueQueue else .ok { o with queue := sz }

/-- OptContext (src/parallel.go lines 69-77); the argument is none exactly
when the caller passes a nil context. -/
def OptContext (ctx : Option Context) : GoOption := fun o =>
  match ctx with
  | none => .error .optInvalidValueContext
  | some c => .ok { o with ctx := c }

/-- The option closure returned by OptMappers (src/parallel.go lines
97-101): installs the supplied pool, in its current state, into the
options. -/
def OptMappersOpt (m : Mapper) : GoOption := fun o =>
  .ok { o with mapper := some m }

/-- OptMappers (src/parallel.go lines 91-102): a size below 1 is normalized
to the platform cpu count ncpu; returns the freshly created pool (whose
CancelFunc is modelled by cancelMapper acting on it) and the installing
option. -/
def OptMappers (ncpu : Nat) (sz : Int) : Mapper × GoOption :=
  let n : Nat := if sz < 1 then ncpu else sz.toNat
  (newMapper n, OptMappersOpt (newMapper n))

/-- The options value makeOptions starts from (src/parallel.go lines
175-177): background context, queue unset (zero), no mapper. -/
def initialOptions : Options :=
  { queue := 0, ctx := Context.background, mapper := none, cancelSet := false }

/-- makeOptions (src/parallel.go lines 174-199): applies each option in
order, returning the first error unchanged; otherwise installs the default
pool (ncpu fresh workers, owned by the engine so its cancel is scheduled)
when none was supplied, and defaults the queue capacity to the pool's
worker count when it was left unset. -/
def makeOptions (ncpu : Nat) (opts : List GoOption) : Except GoErr Options :=
  match opts.foldlM (fun o (opt : GoOption) => opt o) initialOptions with
  | .error e => .error e
  | .ok o =>
    let m := match o.mapper with
      | none => newMapper ncpu
      | some m => m
    let cSet := o.cancelSet || o.mapper.isNone
    let q := if o.queue = 0 then (m.count : Int) else o.queue
    .ok { queue := q, ctx := o.ctx, mapper := some m, cancelSet := cSet }

/-- Outcome resolution performed by the call_then goroutine right before it
invokes the completion handler (src/parallel.go lines 247-257): the pool's
Failure Trap is consulted first, then the invocation's own FailureRecord,
then the cancellation context's error; only when all three are empty does
the handler receive the final accumulator t with a nil error, and in every
error case the final-value argument is nil (none). -/
def callThenResolve {α : Type} (poolTrap invTrap : AtomicValue ErrTrappedPanic)
    (ctx : Context) (t : α) : Option α × Option GoErr :=
  match AtomicValue.load poolTrap with
  | some e => (none, some (GoErr.trapped e))
  | none =>
    match AtomicValue.load invTrap with
    | some e => (none, some (GoErr.trapped e))
    | none =>
      match ctx.errNow with
      | some ce => (none, some (GoErr.fromCtx ce))
      | none => (some t, none)

/-- Observable effects of one call to Parallel (src/parallel.go lines
210-298) up to the point where it returns, panics, or hands the submission
queue to the caller: the returned queue capacity (none when no queue is
returned), the error return value, the value carried by a panic raised at
line 289, whether the call_then goroutine (line 235) and the call_reduce
goroutine (line 266) were spawned, and how many workers were handed the
assignment (lines 293-295). -/
structure CallTrace where
  queue : Option Int
  errReturned : Option GoErr
  panicked : Option ErrTrappedPanic
  thenGoStarted : Bool
  reduceGoStarted : Bool
  workersDispatched : Nat
  deriving DecidableEq, Repr

/-- The control flow of Parallel (src/parallel.go lines 210-298) as far as
the claims require: a failing makeOptions returns (nil, err) at line 218
before any goroutine of this invocation exists; otherwise call_then is
spawned, call_reduce is spawned when a reducer was supplied, and then the
pool's Failure Trap is loaded (line 288): a recorded fault makes the call
panic with that fault before any worker is dispatched, and otherwise the
assignment is dispatched to every pool worker and the submission queue of
the resolved capacity is returned. -/
def parallelCall (ncpu : Nat) (opts : List GoOption) (reducerPresent : Bool) :
    CallTrace :=
  match makeOptions ncpu opts with
  | .error e =>
    { queue := none, errReturned := some e, panicked := none,
      thenGoStarted := false, reduceGoStarted := false, workersDispatched := 0 }
  | .ok o =>
    let m := o.mapper.getD (newMapper ncpu)
    match AtomicValue.load m.trapped with
    | some e =>
      { queue := none, errReturned := none, panicked := some e,
        thenGoStarted := true, reduceGoStarted := reducerPresent,
        workersDispatched := 0 }
    | none =>
      { queue := some o.queue, errReturned := none, panicked := none,
        thenGoStarted := true, reduceGoStarted := reducerPresent,
        workersDispatched := m.count }

/-- Number of wo.Done calls made over one invocation: the barrier wo is
raised once (wo.Add(1), src/parallel.go line 230) and its only Done is in
the deferred block of the call_reduce goroutine (line 273), which is
spawned only when a reducer was supplied (line 263). -/
def woDones (reducerPresent : Bool) : Nat := if reducerPresent then 1 else 0

/-- Number of times the call_then goroutine (src/parallel.go lines 235-259)
invokes the completion handler: first wg.Wait() must return, that is the
mapperCount registered at line 227 must be covered by the wg.Done calls the
workers eventually make (workersDone); then, if a handler is present,
wo.Wait() must return, that is wo.Done must have been called the one time
registered at line 230; only then does the single then(...) call run. -/
def thenCallCount (mapperCount workersDone : Nat)
    (reducerPresent thenPresent : Bool) : Nat :=
  if mapperCount ≤ workersDone then
    if thenPresent then
      if 1 ≤ woDones reducerPresent then 1 else 0
    else 0
  else 0

/-- Which ready case the select statement of the worker assignment loop
(src/parallel.go lines 143-159) fires at one iteration: the forced-stop
channel clx, the cancellation-context channel cls, or a receive from the
submission queue. -/
inductive SelectFire where
  | fireClx
  | fireCls
  | fireRecv
  deriving DecidableEq, Repr

/-- Result of one worker assignment: the jobs the worker received and
mapped, the jobs it received and discarded unmapped, and the jobs still
sitting in the submission queue when it stopped. -/
structure WorkerRes where
  mapped : List Int
  discarded : List Int
  leftover : List Int
  deriving DecidableEq, Repr

/-- The worker assignment loop (src/parallel.go lines 143-159), driven by a
schedule of select choices, over the remaining contents of the submission
queue (taken as closed after its last element). The clx case breaks out of
the loop at once, leaving the queue untouched; the cls case consumes and
discards every remaining queued job before breaking; a receive maps one
queued job, or ends the loop normally when the queue is closed and empty.
An exhausted schedule leaves the worker suspended with the queue as is. -/
def workerLoop : List SelectFire → List Int → WorkerRes
  | SelectFire.fireClx :: _, q => { mapped := [], discarded := [], leftover := q }
  | SelectFire.fireCls :: _, q => { mapped := [], discarded := q, leftover := [] }
  | SelectFire.fireRecv :: _, [] => { mapped := [], discarded := [], leftover := [] }
  | SelectFire.fireRecv :: rest, j :: q =>
    let r := workerLoop rest q
    { mapped := j :: r.mapped, discarded := r.discarded, leftover := r.leftover }
  | [], q => { mapped := [], discarded := [], leftover := q }

/-- Sample trapped panic used in concrete instantiations. -/
def faultA : ErrTrappedPanic := { Panic := .str "a", Stack := [] }

/-- Second sample trapped panic, distinct from faultA. -/
def faultB : ErrTrappedPanic := { Panic := .str "b", Stack := [] }

theorem wrap64_add_left (x y : Int) : wrap64 (wrap64 x + y) = wrap64 (x + y) := by
  unfold wrap64
  omega

theorem wrap64_sub_mul (z m : Int) : wrap64 (z - 2 ^ 64 * m) = wrap64 z := by
  unfold wrap64
  omega

theorem wrap64_as_sub (x : Int) :
    wrap64 x = x - 2 ^ 64 * ((x + 2 ^ 63) / 2 ^ 64) := by
  unfold wrap64
  omega

theorem wrap64_mul_left (x y : Int) : wrap64 (wrap64 x * y) = wrap64 (x * y) := by
  rw [wrap64_as_sub x, sub_mul]
  have h : 2 ^ 64 * ((x + 2 ^ 63) / 2 ^ 64) * y
      = 2 ^ 64 * ((x + 2 ^ 63) / 2 ^ 64 * y) := by ring
  rw [h]
  exact wrap64_sub_mul (x * y) _

theorem add_rightComm (b a₁ a₂ : Int) :
    Add (Add b a₁) a₂ = Add (Add b a₂) a₁ := by
  unfold Add
  rw [wrap64_add_left, wrap64_add_left]
  ring_nf

theorem multiply_rightComm (b a₁ a₂ : Int) :
    Multiply (Multiply b a₁) a₂ = Multiply (Multiply b a₂) a₁ := by
  unfold Multiply
  rw [wrap64_mul_left, wrap64_mul_left]
  ring_nf

/-- C1: for every invocation whose completion handler is invoked, the
outcome is resolved with fixed precedence: a fault in the pool's Failure
Trap is delivered first; otherwise a fault in the invocation's own
FailureRecord; otherwise the cancellation context's error; otherwise the
handler receives the final accumulator value and a nil error. -/
theorem then_resolution_precedence {α : Type}
    (p i : AtomicValue ErrTrappedPanic) (ctx : Context) (t : α) :
    (∀ e, AtomicValue.load p = some e →
      callThenResolve p i ctx t = (none, some (GoErr.trapped e))) ∧
    (∀ e, AtomicValue.load p = none → AtomicValue.load i = some e →
      callThenResolve p i ctx t = (none, some (GoErr.trapped e))) ∧
    (∀ ce, AtomicValue.load p = none → AtomicValue.load i = none →
      ctx.errNow = some ce →
      callThenResolve p i ctx t = (none, some (GoErr.fromCtx ce))) ∧
    (AtomicValue.load p = none → AtomicValue.load i = none →
      ctx.errNow = none → callThenResolve p i ctx t = (some t, none)) := by
  refine ⟨?_, ?_, ?_, ?_⟩ <;> intros <;>
    simp_all [callThenResolve, AtomicValue.load]

/-- Concrete instantiation of the resolution precedence at each of its four
cases. -/
theorem then_resolution_precedence_check :
    callThenResolve (some faultA) (some faultB) { errNow := some CtxErr.canceled }
      (7 : Int) = (none, some (GoErr.trapped faultA)) ∧
    callThenResolve none (some faultB) { errNow := some CtxErr.canceled }
      (7 : Int) = (none, some (GoErr.trapped faultB)) ∧
    callThenResolve none none { errNow := some CtxErr.canceled }
      (7 : Int) = (none, some (GoErr.fromCtx CtxErr.canceled)) ∧
    callThenResolve none none Context.background (7 : Int) = (some 7, none) :=
  ⟨(then_resolution_precedence _ _ _ _).1 faultA rfl,
   (then_resolution_precedence _ _ _ _).2.1 faultB rfl rfl,
   (then_resolution_precedence _ _ _ _).2.2.1 CtxErr.canceled rfl rfl rfl,
   (then_resolution_precedence _ _ _ _).2.2.2 rfl rfl rfl⟩

/-- C2 counterexample: recording two distinct faults in sequence into an
empty failure holder surfaces the second one, not the first: Store on the
underlying atomic slot overwrites, so it is the first fault that is
dropped, and the completion handler receives the later fault. -/
theorem surfaced_fault_is_not_first_recorded :
    AtomicValue.load
      (AtomicValue.store
        (AtomicValue.store (none : AtomicValue ErrTrappedPanic) faultA) faultB)
      ≠ some faultA ∧
    AtomicValue.load
      (AtomicValue.store
        (AtomicValue.store (none : AtomicValue ErrTrappedPanic) faultA) faultB)
      = some faultB ∧
    callThenResolve
      (AtomicValue.store
        (AtomicValue.store (none : AtomicValue ErrTrappedPanic) faultA) faultB)
      none Context.background (0 : Int)
      = (none, some (GoErr.trapped faultB)) := by
  refine ⟨by decide, rfl, rfl⟩

/-- C2 amended: the failure holders have last-write-wins semantics: after
any sequence of recorded faults ending in e, the fault surfaced by Load is
e, and every earlier fault has been overwritten and dropped. -/
theorem failure_holder_last_write_wins (v : AtomicValue ErrTrappedPanic)
    (es : List ErrTrappedPanic) (e : ErrTrappedPanic) :
    AtomicValue.load ((es ++ [e]).foldl AtomicValue.store v) = some e := by
  rw [List.foldl_append]
  rfl

/-- C3: evaluation of the completion path when no reducer is supplied: even
when every one of the n workers has finished its assignment, the completion
handler runs zero times, because the reducer-completion barrier wo is never
signalled for an invocation without a reducer. -/
theorem nil_reducer_completion_never_runs (n w : Nat) :
    thenCallCount n w false true = 0 := by
  unfold thenCallCount woDones
  simp

/-- C4 counterexample: a call with queue size 0 is rejected, but the
configuration error comes back as the error return value of Parallel; the
call_then goroutine that invokes the completion handler is never started,
so the error is not delivered to the completion handler. -/
theorem config_error_not_delivered_to_handler :
    (parallelCall 4 [OptQueue 0] true).errReturned
      = some GoErr.optInvalidValueQueue ∧
    (parallelCall 4 [OptQueue 0] true).thenGoStarted = false ∧
    (parallelCall 4 [OptQueue 0] true).queue = none := by
  refine ⟨rfl, rfl, rfl⟩

/-- C4 amended: a call to Parallel with an invalid option value is rejected
with the configuration error returned synchronously as the error result of
Parallel (the completion handler is not invoked); no submission queue is
returned, nothing panics, and no completion goroutine, reducer goroutine or
worker is started for the invocation. -/
theorem config_error_returned_synchronously (ncpu : Nat)
    (opts : List GoOption) (r : Bool) (e : GoErr)
    (h : makeOptions ncpu opts = .error e) :
    parallelCall ncpu opts r
      = { queue := none, errReturned := some e, panicked := none,
          thenGoStarted := false, reduceGoStarted := false,
          workersDispatched := 0 } := by
  unfold parallelCall
  rw [h]

/-- Concrete instantiation of the synchronous rejection: a nil context. -/
theorem config_error_returned_synchronously_check :
    parallelCall 2 [OptContext none] false
      = { queue := none, errReturned := some GoErr.optInvalidValueContext,
          panicked := none, thenGoStarted := false, reduceGoStarted := false,
          workersDispatched := 0 } :=
  config_error_returned_synchronously 2 [OptContext none] false
    GoErr.optInvalidValueContext rfl

/-- C5: a call to Parallel whose options resolve to a pool whose Failure
Trap already holds a recorded fault panics with exactly that fault: the
fault is not reported through the error return value, no submission queue
is returned and no worker is dispatched. -/
theorem poisoned_pool_call_panics (ncpu : Nat) (opts : List GoOption)
    (r : Bool) (o : Options) (m : Mapper) (e : ErrTrappedPanic)
    (h : makeOptions ncpu opts = .ok o) (hm : o.mapper = some m)
    (he : AtomicValue.load m.trapped = some e) :
    (parallelCall ncpu opts r).panicked = some e ∧
    (parallelCall ncpu opts r).errReturned = none ∧
    (parallelCall ncpu opts r).queue = none ∧
    (parallelCall ncpu opts r).workersDispatched = 0 := by
  unfold parallelCall
  rw [h]
  simp [hm, AtomicValue.load] at he ⊢
  simp [he]

/-- Concrete instantiation of the poisoned-pool panic: the pool's cancel
function has stored the cancelled-mapper fault, and the next call panics
with that very fault. -/
theorem poisoned_pool_call_panics_check :
    (parallelCall 4 [OptMappersOpt (cancelMapper (newMapper 2))] true).panicked
      = some cancelledFault ∧
    (parallelCall 4 [OptMappersOpt (cancelMapper (newMapper 2))] true).errReturned
      = none ∧
    (parallelCall 4 [OptMappersOpt (cancelMapper (newMapper 2))] true).queue
      = none ∧
    (parallelCall 4 [OptMappersOpt (cancelMapper (newMapper 2))] true).workersDispatched
      = 0 :=
  poisoned_pool_call_panics 4 [OptMappersOpt (cancelMapper (newMapper 2))] true
    { queue := 2, ctx := Context.background,
      mapper := some (cancelMapper (newMapper 2)), cancelSet := false }
    (cancelMapper (newMapper 2)) cancelledFault rfl rfl rfl

/-- C6: jobs 0, 1, 2, -1 with seed 0 under the built-in addition reducer
give a final accumulator of 2; the same jobs with seed 0 under the built-in
multiplication reducer give 0; jobs 1, 2, -1 with seed 1 under
multiplication give -2 — and each value is the same in every order in which
the results arrive at the Reduction Loop (every permutation of the mapped
jobs, the mapper being the identity). -/
theorem builtin_reducer_final_values :
    (∀ l : List Int, List.Perm l [0, 1, 2, -1] → reduceAll Add 0 l = 2) ∧
    (∀ l : List Int, List.Perm l [0, 1, 2, -1] → reduceAll Multiply 0 l = 0) ∧
    (∀ l : List Int, List.Perm l [1, 2, -1] → reduceAll Multiply 1 l = -2) := by
  have rcA : RightCommutative Add := ⟨add_rightComm⟩
  have rcM : RightCommutative Multiply := ⟨multiply_rightComm⟩
  refine ⟨fun l h => ?_, fun l h => ?_, fun l h => ?_⟩
  · rw [reduceAll, @List.Perm.foldl_eq _ _ Add _ _ rcA h 0]
    decide
  · rw [reduceAll, @List.Perm.foldl_eq _ _ Multiply _ _ rcM h 0]
    decide
  · rw [reduceAll, @List.Perm.foldl_eq _ _ Multiply _ _ rcM h 1]
    decide

/-- Concrete instantiation of the reducer results at shuffled arrival
orders of the same job multisets. -/
theorem builtin_reducer_final_values_check :
    reduceAll Add 0 [2, 0, -1, 1] = 2 ∧
    reduceAll Multiply 0 [-1, 2, 1, 0] = 0 ∧
    reduceAll Multiply 1 [-1, 1, 2] = -2 :=
  ⟨builtin_reducer_final_values.1 [2, 0, -1, 1] (by decide),
   builtin_reducer_final_values.2.1 [-1, 2, 1, 0] (by decide),
   builtin_reducer_final_values.2.2 [-1, 1, 2] (by decide)⟩

/-- C7: evaluation of the completion-handler invocation count: with a
reducer supplied and all workers finished the handler runs exactly once,
but an invocation with no reducer and a non-nil handler runs it zero times
(the wo barrier is never signalled), violating the exactly-once guarantee
claimed for every invocation. -/
theorem completion_handler_count_by_reducer_presence :
    (∀ n : Nat, thenCallCount n n true true = 1) ∧
    thenCallCount 3 3 false true = 0 := by
  constructor
  · intro n
    unfold thenCallCount woDones
    simp
  · decide

/-- C8 counterexample: when the forced-stop signal clx fires with jobs 7
and 8 still queued, the worker breaks out of its assignment at once: it
discards nothing and leaves both jobs sitting in the submission queue, so
the queue is not drained. -/
theorem forced_stop_does_not_drain_queue :
    (workerLoop [SelectFire.fireClx] [7, 8]).discarded = [] ∧
    (workerLoop [SelectFire.fireClx] [7, 8]).leftover = [7, 8] ∧
    ([7, 8] : List Int) ≠ [] := by
  refine ⟨rfl, rfl, by decide⟩

/-- C8 amended: when the forced-stop signal fires the worker abandons the
current assignment without processing further jobs, leaving every remaining
queued job in the submission queue; it is the cancellation-context signal
on which the worker drains and discards every remaining queued job. -/
theorem signal_drain_behaviour (rest : List SelectFire) (q : List Int) :
    workerLoop (SelectFire.fireClx :: rest) q
      = { mapped := [], discarded := [], leftover := q } ∧
    workerLoop (SelectFire.fireCls :: rest) q
      = { mapped := [], discarded := q, leftover := [] } :=
  ⟨rfl, rfl⟩

/-- C9: OptQueue with any size below 1 fails with the invalid-queue-size
error leaving the options unchanged, and with any size of at least 1 sets
the queue size to it; OptContext with an absent context fails with the
invalid-context error, and with a present context sets it. -/
theorem option_validation (o : Options) :
    (∀ sz : Int, sz < 1 →
      OptQueue sz o = .error GoErr.optInvalidValueQueue) ∧
    (∀ sz : Int, 1 ≤ sz → OptQueue sz o = .ok { o with queue := sz }) ∧
    OptContext none o = .error GoErr.optInvalidValueContext ∧
    (∀ c : Context, OptContext (some c) o = .ok { o with ctx := c }) := by
  refine ⟨fun sz h => ?_, fun sz h => ?_, rfl, fun c => rfl⟩
  · simp [OptQueue, h]
  · simp [OptQueue, not_lt.mpr h]

/-- Concrete instantiation of the option validators on both sides of each
boundary. -/
theorem option_validation_check :
    OptQueue 0 initialOptions = .error GoErr.optInvalidValueQueue ∧
    OptQueue 5 initialOptions = .ok { initialOptions with queue := 5 } ∧
    OptContext none initialOptions = .error GoErr.optInvalidValueContext ∧
    OptContext (some { errNow := some CtxErr.canceled }) initialOptions
      = .ok { initialOptions with ctx := { errNow := some CtxErr.canceled } } :=
  ⟨(option_validation initialOptions).1 0 (by decide),
   (option_validation initialOptions).2.1 5 (by decide),
   (option_validation initialOptions).2.2.1,
   (option_validation initialOptions).2.2.2 { errNow := some CtxErr.canceled }⟩

/-- C10: whenever the resolved outcome carries a non-nil error — a pool
fault, an invocation fault or a cancellation error — the final-value
argument handed to the completion handler is nil: the partial accumulator
is never exposed alongside an error. -/
theorem error_outcome_has_nil_value {α : Type}
    (p i : AtomicValue ErrTrappedPanic) (ctx : Context) (t : α)
    (h : (callThenResolve p i ctx t).2 ≠ none) :
    (callThenResolve p i ctx t).1 = none := by
  cases p <;> cases i <;> rcases ctx with ⟨ce⟩ <;> cases ce <;>
    simp_all [callThenResolve, AtomicValue.load]

/-- Concrete instantiation: an invocation-level fault forces a nil final
value. -/
theorem error_outcome_has_nil_value_check :
    (callThenResolve none (some faultB) Context.background (9 : Int)).1
      = none :=
  error_outcome_has_nil_value none (some faultB) Context.background 9
    (by decide)

end GoParallel
